/-
Verification of the AtBus request/response RPC core (collapsetheory/atbus).

Shallow embedding of the TypeScript sources:
  * helpers/is-json.ts, helpers/map-error.ts, helpers/payload-size-bytes.ts,
    helpers/match-route.ts, helpers/validate-route.ts, helpers/guards.ts
  * server.ts (AtBusServer: addressing filter and envelope dispatch)
  * client.ts (AtBusClient: call, stop, message handling, pending table)

JavaScript runtime values relevant to the helpers are modelled by the
inductive `JsVal` (undefined, null, booleans, numbers, strings, arrays and
plain string-keyed objects).  Machine numbers are modelled as integers;
none of the verified code paths depend on fractional values.
-/
import Mathlib

namespace AtBus

/-- Model of a JavaScript runtime value as far as the AtBus helpers
inspect it: `undefined`, `null`, booleans, numbers, strings, arrays and
plain string-keyed objects (own enumerable properties, in insertion
order, keys unique). -/
inductive JsVal where
  | undef : JsVal
  | jsNull : JsVal
  | jsBool : Bool → JsVal
  | jsNum : Int → JsVal
  | jsStr : String → JsVal
  | jsArr : List JsVal → JsVal
  | jsObj : List (String × JsVal) → JsVal

/-- JavaScript `typeof v === "object"`: true for `null`, arrays and
objects; false for undefined, booleans, numbers and strings. -/
def JsVal.typeofObject : JsVal → Bool
  | .jsNull => true
  | .jsArr _ => true
  | .jsObj _ => true
  | _ => false

/-- JavaScript truthiness of a value (`!!v`): `undefined`, `null`,
`false`, `0` and `""` are falsy; everything else is truthy. -/
def JsVal.truthy : JsVal → Bool
  | .undef => false
  | .jsNull => false
  | .jsBool b => b
  | .jsNum n => n != 0
  | .jsStr s => s != ""
  | .jsArr _ => true
  | .jsObj _ => true

/-- Property read `record.k` on a value: on an object, the bound value of
key `k` (keys are unique, first binding wins); reading an absent property
or a named property of an array yields `undefined`. -/
def JsVal.getProp (v : JsVal) (k : String) : JsVal :=
  match v with
  | .jsObj fields =>
      match fields.find? (fun p => p.1 == k) with
      | some p => p.2
      | none => .undef
  | _ => .undef

mutual

/-- helpers/is-json.ts `isJson`: null, strings, numbers and booleans are
JSON; arrays are JSON when every item is; objects are JSON when every
property value is; everything else (here: `undefined`) is not. -/
def isJson : JsVal → Bool
  | .jsNull => true
  | .jsStr _ => true
  | .jsNum _ => true
  | .jsBool _ => true
  | .undef => false
  | .jsArr xs => isJsonList xs
  | .jsObj fs => isJsonFields fs

/-- Conjunction `value.every((item) => isJson(item))` over an array's items. -/
def isJsonList : List JsVal → Bool
  | [] => true
  | x :: xs => isJson x && isJsonList xs

/-- Conjunction `Object.values(value).every((item) => isJson(item))` over an
object's property values. -/
def isJsonFields : List (String × JsVal) → Bool
  | [] => true
  | (_, x) :: fs => isJson x && isJsonFields fs

end

/-- errors.ts `ATBUS_PROTOCOL_VERSION`. -/
def ATBUS_PROTOCOL_VERSION : Int := 1

/- errors.ts `AtBusErrorCode`: the closed enumeration of error codes, as
the wire strings. -/
namespace AtBusErrorCode

def RouteNotFound : String := "ROUTE_NOT_FOUND"
def Timeout : String := "TIMEOUT"
def InternalError : String := "INTERNAL_ERROR"
def InvalidMessage : String := "INVALID_MESSAGE"
def PayloadTooLarge : String := "PAYLOAD_TOO_LARGE"
def Forbidden : String := "FORBIDDEN"
def ClientClosed : String := "CLIENT_CLOSED"
def Cancelled : String := "CANCELLED"
def TransportError : String := "TRANSPORT_ERROR"

/-- All codes, `Object.values(AtBusErrorCode)`, in declaration order. -/
def allCodes : List String :=
  [RouteNotFound, Timeout, InternalError, InvalidMessage, PayloadTooLarge,
   Forbidden, ClientClosed, Cancelled, TransportError]

end AtBusErrorCode

/-- helpers/map-error.ts `normalizeErrorCode`: a non-string value, or a
string outside the closed code enumeration, is coerced to
`INTERNAL_ERROR`; a known code string passes through verbatim. -/
def normalizeErrorCode : JsVal → String
  | .jsStr s => if AtBusErrorCode.allCodes.contains s then s else AtBusErrorCode.InternalError
  | _ => AtBusErrorCode.InternalError

/-- The structured error record `AtBusFailure["error"]` (types/failure.ts):
code, message, route, retriability flag, optional JSON details. -/
structure ErrorRecord where
  code : String
  message : String
  route : String
  retriable : Bool
  details : Option JsVal

/-- helpers/map-error.ts `mapError`: normalizes an arbitrary caught value
into a structured error record.  The model covers every `JsVal`; `Error`
instances are plain objects here, so the `error instanceof Error` message
fallback is the fixed string (it affects only the message field). -/
def mapError (error : JsVal) (route : String) : ErrorRecord :=
  if error.truthy && error.typeofObject then
    let code := normalizeErrorCode (error.getProp "code")
    let message :=
      match error.getProp "message" with
      | .jsStr s => s
      | _ => "Unknown error"
    let details :=
      if isJson (error.getProp "details") then some (error.getProp "details") else none
    let retriable :=
      match error.getProp "retriable" with
      | .jsBool b => b
      | _ => code == AtBusErrorCode.Timeout || code == AtBusErrorCode.TransportError
    { code := code, message := message, route := route,
      retriable := retriable, details := details }
  else
    { code := AtBusErrorCode.InternalError,
      message := "Unknown error",
      route := route, retriable := false, details := none }

/-- Statement helper phrasing the spec's "explicit boolean retriable
field": the raw failure's own `retriable` property when the failure is an
object carrying a boolean there, absent otherwise. -/
def explicitRetriable (error : JsVal) : Option Bool :=
  if error.truthy && error.typeofObject then
    match error.getProp "retriable" with
    | .jsBool b => some b
    | _ => none
  else none

/-
Route matching (helpers/match-route.ts).  A route descriptor is a literal
string or a JavaScript RegExp.  The RegExp is modelled by a regular
expression syntax tree with the standard operators; `RegExp.prototype.test`
searches for a match at any position of the subject string, which is
modelled by trying the matcher on every contiguous substring.
-/

/-- Model of a (JavaScript) regular expression: empty language, empty
string, single character, alternation, concatenation, Kleene star. -/
inductive Regex where
  | emp : Regex
  | eps : Regex
  | chr : Char → Regex
  | alt : Regex → Regex → Regex
  | cat : Regex → Regex → Regex
  | star : Regex → Regex

/-- Whether the regular expression accepts the empty string. -/
def Regex.nullable : Regex → Bool
  | .emp => false
  | .eps => true
  | .chr _ => false
  | .alt r s => r.nullable || s.nullable
  | .cat r s => r.nullable && s.nullable
  | .star _ => true

/-- Brzozowski derivative of the regular expression by one character. -/
def Regex.deriv : Regex → Char → Regex
  | .emp, _ => .emp
  | .eps, _ => .emp
  | .chr c, a => if a = c then .eps else .emp
  | .alt r s, a => .alt (r.deriv a) (s.deriv a)
  | .cat r s, a =>
      if r.nullable then .alt (.cat (r.deriv a) s) (s.deriv a)
      else .cat (r.deriv a) s
  | .star r, a => .cat (r.deriv a) (.star r)

/-- The regular expression matches the character list exactly (whole
string): repeated derivation, then the nullability check. -/
def Regex.matchList (r : Regex) (cs : List Char) : Bool :=
  (cs.foldl Regex.deriv r).nullable

/-- JavaScript `RegExp.prototype.test(url)`: regex matching is a search —
`test` returns true when the pattern matches starting at any position of
the subject, i.e. when some contiguous substring is matched exactly. -/
def Regex.test (r : Regex) (url : String) : Bool :=
  let cs := url.toList
  (List.range (cs.length + 1)).any fun i =>
    (List.range (cs.length - i + 1)).any fun n =>
      r.matchList ((cs.drop i).take n)

/-- A route descriptor: a literal string route or a RegExp pattern
(`string | RegExp` in the source). -/
inductive RouteDesc where
  | str : String → RouteDesc
  | pattern : Regex → RouteDesc

/-- JavaScript `s.split(sep)` for a one-character separator, over the
character list: splitting the empty string yields one empty piece;
otherwise the pieces between separator occurrences, in order. -/
def splitOnChar (sep : Char) : List Char → List (List Char)
  | [] => [[]]
  | c :: cs =>
      let rest := splitOnChar sep cs
      if c = sep then [] :: rest
      else
        match rest with
        | [] => [[c]]
        | piece :: pieces => (c :: piece) :: pieces

/-- Splitting `split("/")` then `filter(Boolean)`: the non-empty
`/`-separated segments of a path, as character lists. -/
def splitSegs (s : String) : List (List Char) :=
  (splitOnChar '/' s.toList).filter (fun part => part ≠ [])

/-- The per-segment loop of helpers/match-route.ts: both lists have equal
length; a `:`-led descriptor segment binds the path segment under the
marker name obtained by `slice(1)` (failing if the name is empty),
otherwise the segments must be equal.  Bindings are returned in segment
order. -/
def matchSegs : List (List Char) → List (List Char) → Option (List (String × String))
  | [], [] => some []
  | routePart :: routeRest, urlPart :: urlRest =>
      match routePart with
      | ':' :: key =>
          if key = [] then none
          else (matchSegs routeRest urlRest).map
            (fun params => (String.mk key, String.mk urlPart) :: params)
      | _ =>
          if routePart = urlPart then matchSegs routeRest urlRest else none
  | _, _ => none

/-- helpers/match-route.ts `matchRoute`: RegExp descriptors use `test`
and yield no parameters; strings without the `:` character match by
string equality; strings with `:` match segment-wise after discarding
empty segments. -/
def matchRoute : RouteDesc → String → Option (List (String × String))
  | .pattern r, url => if r.test url then some [] else none
  | .str route, url =>
      if !(route.toList.contains ':') then
        if route = url then some [] else none
      else
        let routeParts := splitSegs route
        let urlParts := splitSegs url
        if routeParts.length ≠ urlParts.length then none
        else matchSegs routeParts urlParts

/-- helpers/validate-route.ts `validateRoute`: RegExp descriptors are
always valid; string routes must start with the `/` character (otherwise
the source throws).  `true` means no throw. -/
def validateRoute : RouteDesc → Bool
  | .pattern _ => true
  | .str route =>
      match route.toList with
      | '/' :: _ => true
      | _ => false

/-
Payload sizing (helpers/payload-size-bytes.ts).  Serialization itself
(JSON.stringify composed with UTF-8 encoding) is the out-of-scope external
serializer; a payload is modelled by whether it serializes and, when it
does, by the UTF-8 byte length of its serialization.  A payload whose
serialization throws (circular structure, bigint, ...) is `unserializable`.
-/

/-- A request/response payload as the size helper sees it: either its
JSON serialization succeeds with a given UTF-8 byte length, or
serialization throws. -/
inductive Payload where
  | serializable : Nat → Payload
  | unserializable : Payload

/-- helpers/payload-size-bytes.ts `payloadSizeBytes`: the byte length of
the serialized payload, or positive infinity when serialization throws. -/
def payloadSizeBytes : Payload → WithTop Nat
  | .serializable n => (n : WithTop Nat)
  | .unserializable => ⊤

/-
Addressing and envelopes.  Optional string fields (`string | undefined`)
are `Option String`; JavaScript truthiness of such a field holds exactly
when it is present and non-empty.
-/

/-- JavaScript truthiness of an optional string field: present and
non-empty. -/
def strTruthy : Option String → Bool
  | none => false
  | some s => s != ""

/-- server.ts `AtBusServer.#matchesAddressing`: the responder-side
addressing filter, transliterated clause for clause (self-source check,
target check, unaddressed check, bus-mismatch check, scoped-message to
unscoped-responder check). -/
def matchesAddressing (serverId : String) (serverBus : Option String)
    (acceptUnaddressed : Bool)
    (sourceId targetId bus : Option String) : Bool :=
  if strTruthy sourceId && sourceId == some serverId then false
  else if strTruthy targetId && targetId != some serverId then false
  else if !strTruthy targetId && !acceptUnaddressed then false
  else if strTruthy serverBus && strTruthy bus && bus != serverBus then false
  else if !strTruthy serverBus && strTruthy bus then false
  else true

/-- A wire envelope as the guards in helpers/guards.ts classify it.  The
structural field-type checks of the guards are enforced by the
constructor types; the protocol-version check stays explicit in the `v`
field.  Success data values are not modelled (no verified property
inspects them); failure responses carry their structured error record.
`malformed` stands for any inbound value that is not one of the three
envelope shapes. -/
inductive Envelope where
  | request (v : Int) (id : String) (route : String) (payload : Payload)
      (sourceId targetId bus : Option String)
  | response (v : Int) (id : String) (ok : Bool) (error : Option ErrorRecord)
      (sourceId targetId bus : Option String)
  | cancel (v : Int) (id : String) (sourceId targetId bus : Option String)
  | malformed

/-
Responder model (server.ts `AtBusServer`).  `#handleEnvelope` awaits the
matched handler between inserting and deleting the in-flight entry; the
model runs that whole reaction atomically, with the handler's eventual
settlement supplied by the stored handler function.
-/

/-- Settlement of a route handler: fulfilled, or rejected/thrown with a
raw JavaScript value (fed to `mapError`).  Success data is not
modelled. -/
inductive HandlerRes where
  | success : HandlerRes
  | failure : JsVal → HandlerRes

/-- One registered route (server.ts `RouteDef`): descriptor plus handler.
The handler receives the request payload and the extracted parameters;
its settlement is what the dispatch loop observes. -/
structure RouteDef where
  route : RouteDesc
  handler : Payload → List (String × String) → HandlerRes

/-- The responder's mutable state and configuration
(server.ts `AtBusServer` fields).  An in-flight entry is the request id
with its AbortController's aborted flag. -/
structure ServerState where
  closed : Bool
  started : Bool
  routes : List RouteDef
  inFlight : List (String × Bool)
  serverId : String
  bus : Option String
  acceptUnaddressed : Bool
  maxPayloadBytes : Nat
  canHandle : Option (String → Bool)

/-- Result of one `#handleEnvelope` reaction: the successor state, the
envelopes posted through the endpoint, and whether a route handler was
invoked. -/
structure ServerEffect where
  state : ServerState
  sent : List Envelope
  handlerRan : Bool

/-- server.ts `#sendFailure`: a failure response stamped with the
protocol version, the responder's id as source, and the given target and
bus (for pre-dispatch failures these are the request's source and the
request's bus, with no fallback to the responder's bus). -/
def sendFailureEnv (serverId : String) (id code message route : String)
    (retriable : Bool) (targetId bus : Option String) : Envelope :=
  .response ATBUS_PROTOCOL_VERSION id false
    (some { code := code, message := message, route := route,
            retriable := retriable, details := none })
    (some serverId) targetId bus

/-- Route lookup `this.#routes.map(...).find((item) => item.params !== null)`: the
first registered route whose matcher succeeds on the path, with its
extracted parameters. -/
def findMatch (routes : List RouteDef) (route : String) :
    Option (RouteDef × List (String × String)) :=
  match routes with
  | [] => none
  | entry :: rest =>
      match matchRoute entry.route route with
      | some params => some (entry, params)
      | none => findMatch rest route

/-- Nullish coalescing `request.bus ?? this.#bus` on the optional bus
field (an empty string is kept, only an absent field falls back). -/
def busFallback (requestBus serverBus : Option String) : Option String :=
  match requestBus with
  | some b => some b
  | none => serverBus

/-- Abort step `this.#inFlight.get(id)?.abort()`: abort the matching in-flight
controller if present; no entry is added or removed. -/
def abortInFlight (inFlight : List (String × Bool)) (id : String) :
    List (String × Bool) :=
  inFlight.map (fun p => if p.1 = id then (p.1, true) else p)

/-- server.ts `AtBusServer.#handleEnvelope`, transliterated: drop when
closed; cancel envelopes are version-checked (`isAtBusCancel`),
addressing-filtered, then abort the matching in-flight controller;
requests are version-checked (`isAtBusRequest`), addressing-filtered,
permission-checked, size-checked, route-matched, and dispatched — the
in-flight entry is inserted before the handler runs and deleted in the
`finally` block, so the reaction ends with the id absent; anything else
is silently dropped. -/
def handleEnvelope (s : ServerState) (data : Envelope) : ServerEffect :=
  if s.closed then ⟨s, [], false⟩
  else
    match data with
    | .cancel v id sourceId targetId bus =>
        if v ≠ ATBUS_PROTOCOL_VERSION then ⟨s, [], false⟩
        else if !matchesAddressing s.serverId s.bus s.acceptUnaddressed sourceId targetId bus then
          ⟨s, [], false⟩
        else ⟨{ s with inFlight := abortInFlight s.inFlight id }, [], false⟩
    | .request v id route payload sourceId targetId bus =>
        if v ≠ ATBUS_PROTOCOL_VERSION then ⟨s, [], false⟩
        else if !matchesAddressing s.serverId s.bus s.acceptUnaddressed sourceId targetId bus then
          ⟨s, [], false⟩
        else if (match s.canHandle with | some allowed => !allowed route | none => false) then
          ⟨s, [sendFailureEnv s.serverId id AtBusErrorCode.Forbidden
                ("Route is not allowed: " ++ route) route false sourceId bus], false⟩
        else if payloadSizeBytes payload > (s.maxPayloadBytes : WithTop Nat) then
          ⟨s, [sendFailureEnv s.serverId id AtBusErrorCode.PayloadTooLarge
                ("Payload exceeds " ++ toString s.maxPayloadBytes ++ " bytes") route false
                sourceId bus], false⟩
        else
          match findMatch s.routes route with
          | none =>
              ⟨s, [sendFailureEnv s.serverId id AtBusErrorCode.RouteNotFound
                    ("No route registered for " ++ route) route false sourceId bus], false⟩
          | some (entry, params) =>
              let reply :=
                match entry.handler payload params with
                | .success =>
                    Envelope.response ATBUS_PROTOCOL_VERSION id true none
                      (some s.serverId) sourceId (busFallback bus s.bus)
                | .failure err =>
                    Envelope.response ATBUS_PROTOCOL_VERSION id false
                      (some (mapError err route))
                      (some s.serverId) sourceId (busFallback bus s.bus)
              ⟨{ s with inFlight := s.inFlight.filter (fun p => p.1 ≠ id) }, [reply], true⟩
    | _ => ⟨s, [], false⟩

/-
Requester model (client.ts `AtBusClient`).  The pending table maps the
generated request id to its entry; of the entry `{resolve, reject, timer}`
the model keeps the timer handle (the callbacks are the promise's, and
promise settlement is observed through the returned effects).
-/

/-- The requester's mutable state and configuration
(client.ts `AtBusClient` fields). -/
structure ClientState where
  closed : Bool
  started : Bool
  receiverAttached : Bool
  endpointClosed : Bool
  pending : List (String × Nat)
  defaultTimeoutMs : Nat
  maxPayloadBytes : Nat
  clientId : String
  targetId : Option String
  bus : Option String

/-- client.ts `#sendCancel`: the cancel envelope stamped with the
client's id, fixed target and bus. -/
def cancelEnvelope (c : ClientState) (id : String) : Envelope :=
  .cancel ATBUS_PROTOCOL_VERSION id (some c.clientId) c.targetId c.bus

/-- Synchronous outcome of `call`: a synchronous throw from
`validateRoute`, an (immediate) rejection of the returned promise with an
error code and retriability flag, or a registered pending request whose
promise is still unsettled. -/
inductive CallSyncResult where
  | threw
  | rejected (code : String) (retriable : Bool)
  | pendingReg

/-- Effect of one `call` invocation: successor state, the envelopes whose
posting was attempted on the endpoint (in order, whether or not
`postMessage` threw), and the synchronous outcome. -/
structure CallEffect where
  state : ClientState
  attempts : List Envelope
  result : CallSyncResult

/-- client.ts `AtBusClient.call`, transliterated: reject client-closed
when closed (before anything else); lazily start; `validateRoute` may
throw; reject payload-too-large when the measured size exceeds the
ceiling (before building the envelope); otherwise arm the timer, register
the pending entry, post the request (a throwing `postMessage` cleans up
and rejects transport-error), and only then consult the abort signal —
a signal already aborted at call time runs the abort path at once
(cleanup, best-effort cancel envelope, reject cancelled).
`requestId` models the freshly generated UUID, `signal` the optional
abort signal with its aborted flag at call time, `postThrows` whether the
endpoint's `postMessage` throws. -/
def callStep (c : ClientState) (route : String) (payload : Payload)
    (timeoutMs : Option Nat) (signal : Option Bool) (requestId : String)
    (postThrows : Bool) : CallEffect :=
  if c.closed then ⟨c, [], .rejected AtBusErrorCode.ClientClosed false⟩
  else
    let c1 := if !c.started then { c with started := true, receiverAttached := true } else c
    if !validateRoute (.str route) then ⟨c1, [], .threw⟩
    else if payloadSizeBytes payload > (c1.maxPayloadBytes : WithTop Nat) then
      ⟨c1, [], .rejected AtBusErrorCode.PayloadTooLarge false⟩
    else
      let tmo := timeoutMs.getD c1.defaultTimeoutMs
      let request : Envelope :=
        .request ATBUS_PROTOCOL_VERSION requestId route payload
          (some c1.clientId) c1.targetId c1.bus
      let c2 := { c1 with pending := (requestId, tmo) :: c1.pending }
      if postThrows then
        ⟨{ c2 with pending := c2.pending.filter (fun p => p.1 ≠ requestId) },
         [request], .rejected AtBusErrorCode.TransportError true⟩
      else
        match signal with
        | some true =>
            ⟨{ c2 with pending := c2.pending.filter (fun p => p.1 ≠ requestId) },
             [request, cancelEnvelope c1 requestId],
             .rejected AtBusErrorCode.Cancelled false⟩
        | _ => ⟨c2, [request], .pendingReg⟩

/-- Effect of one `stop` invocation: successor state, cancel envelopes
whose posting was attempted, the rejections issued to pending promises
(request id, error code, retriability), and the cancelled timer
handles. -/
structure StopEffect where
  state : ClientState
  attempts : List Envelope
  rejections : List (String × String × Bool)
  clearedTimers : List Nat

/-- client.ts `AtBusClient.stop`, transliterated: a closed client returns
at once; otherwise mark closed, detach the receive handlers, and for
every pending entry clear its timer, best-effort send a cancel envelope
and reject it with client-closed (not retriable); then clear the table
and close the endpoint. -/
def stopStep (c : ClientState) : StopEffect :=
  if c.closed then ⟨c, [], [], []⟩
  else
    ⟨{ c with closed := true, started := false, receiverAttached := false,
              pending := [], endpointClosed := true },
     c.pending.map (fun p => cancelEnvelope c p.1),
     c.pending.map (fun p => (p.1, AtBusErrorCode.ClientClosed, false)),
     c.pending.map (fun p => p.2)⟩

/-- What a matching response does to the pending promise: fulfil it with
the carried data, or reject it with the carried remote error. -/
inductive SettleKind where
  | resolvedData
  | rejectedRemote (error : Option ErrorRecord)

/-- client.ts `AtBusClient.#handleMessage`, transliterated: ignore
anything that is not a version-1 response (`isAtBusResponse`); apply the
requester-side addressing checks; look the id up in the pending table —
absent means return with no effect; present means clear the timer, delete
the entry, and settle the promise by the response's discriminant. -/
def handleMessage (c : ClientState) (data : Envelope) :
    ClientState × Option (String × SettleKind) :=
  match data with
  | .response v id ok err sourceId targetId bus =>
      if v ≠ ATBUS_PROTOCOL_VERSION then (c, none)
      else if strTruthy targetId && targetId != some c.clientId then (c, none)
      else if strTruthy c.targetId && strTruthy sourceId && sourceId != c.targetId then (c, none)
      else if strTruthy c.bus && strTruthy bus && bus != c.bus then (c, none)
      else
        match c.pending.find? (fun p => p.1 == id) with
        | none => (c, none)
        | some _ =>
            ({ c with pending := c.pending.filter (fun p => p.1 ≠ id) },
             some (id, if ok then .resolvedData else .rejectedRemote err))
  | _ => (c, none)

/-
Exactly-once settlement machine.  For one outstanding request id, the
three completion triggers of client.ts are reactions on one logical
thread (§ the promise executor in `call`, the timeout callback, the abort
listener, and `#handleMessage`).  The machine tracks, for that id: table
membership (`hasEntry`), whether the armed timer is still live
(`timerArmed`; `clearTimeout` or firing kills it), whether the
`{ once: true }` abort listener is still registered (`listenerArmed`),
and the promise cell.  A JavaScript promise ignores resolve/reject once
settled; `settleCount` counts the settlements that took effect.
-/

/-- How the call promise was settled. -/
inductive CorrOutcome where
  | resolvedData
  | rejectedRemote
  | rejectedTimeout
  | rejectedCancelled

/-- Per-request correlator state: pending-table membership, timer and
abort-listener liveness, and the promise cell with its effective
settlement count. -/
structure CorrState where
  hasEntry : Bool
  timerArmed : Bool
  listenerArmed : Bool
  settled : Option CorrOutcome
  settleCount : Nat

/-- The three completion triggers for one request id: a matching
(addressing-accepted) response envelope arrives with the given
discriminant, the armed timeout fires, the external abort signal fires. -/
inductive CorrEvent where
  | responseArrive (ok : Bool)
  | timerFire
  | abortFire

/-- Settling `resolve`/`reject` on the call promise: takes effect only while the
promise is unsettled (JavaScript promise semantics). -/
def settlePromise (s : CorrState) (o : CorrOutcome) : CorrState :=
  match s.settled with
  | some _ => s
  | none => { s with settled := some o, settleCount := s.settleCount + 1 }

/-- One reaction of the correlator for the request id, from the code
paths of client.ts: a response arrival runs `#handleMessage` (absent
entry returns with no effect; present entry clears the timer, deletes the
entry and settles by the discriminant); the timeout callback can only run
while its timer is live, then deletes the entry and rejects with timeout;
the abort listener can only run while registered (`{ once: true }`), then
clears the timer, deletes the entry and rejects with cancelled. -/
def corrStep (s : CorrState) (e : CorrEvent) : CorrState :=
  match e with
  | .responseArrive ok =>
      if !s.hasEntry then s
      else
        settlePromise { s with hasEntry := false, timerArmed := false }
          (if ok then .resolvedData else .rejectedRemote)
  | .timerFire =>
      if !s.timerArmed then s
      else settlePromise { s with hasEntry := false, timerArmed := false } .rejectedTimeout
  | .abortFire =>
      if !s.listenerArmed then s
      else
        settlePromise
          { s with hasEntry := false, timerArmed := false, listenerArmed := false }
          .rejectedCancelled

/-- A finite sequence of trigger reactions, in their (single-threaded)
execution order. -/
def corrRun (s : CorrState) (es : List CorrEvent) : CorrState :=
  es.foldl corrStep s

/-- The state right after `call` registered the request: entry in the
table, timer armed, abort listener registered, promise unsettled. -/
def corrInit : CorrState :=
  { hasEntry := true, timerArmed := true, listenerArmed := true,
    settled := none, settleCount := 0 }

/-- Invariant of the per-request correlator reachable from `corrInit`:
while the entry is in the table the promise is unsettled and nothing has
taken effect; once the entry is gone the promise has been settled exactly
once and the timer can no longer fire. -/
def corrInv (s : CorrState) : Prop :=
  (s.hasEntry = true → s.settled = none ∧ s.settleCount = 0) ∧
  (s.hasEntry = false → s.settled.isSome ∧ s.settleCount = 1 ∧ s.timerArmed = false)

/-
Concrete instances used by closed counterexamples and witnesses.
-/

/-- An open requester with two pending requests, default configuration,
no fixed target and no bus. -/
def clientEx : ClientState :=
  { closed := false, started := true, receiverAttached := true, endpointClosed := false,
    pending := [("req-a", 5), ("req-b", 7)], defaultTimeoutMs := 10000,
    maxPayloadBytes := 2097152, clientId := "c1", targetId := none, bus := none }

/-- An open responder scoped to bus "core", accepting unaddressed
messages, with one literal route `/ping` whose handler succeeds. -/
def serverEx : ServerState :=
  { closed := false, started := true, routes := [⟨.str "/ping", fun _ _ => .success⟩],
    inFlight := [], serverId := "server-a", bus := some "core", acceptUnaddressed := true,
    maxPayloadBytes := 2097152, canHandle := none }

end AtBus

namespace AtBus

/-- C2 counterexample: a responder constructed with bus name "core",
receiving a request envelope that carries no bus field, does not reject
it — the addressing filter accepts it, the `/ping` handler is invoked,
and a reply is posted, contradicting the claim that bus-scoped responders
drop every bus-less envelope. -/
theorem C2_counterexample :
    matchesAddressing "server-a" (some "core") true (some "c1") none none = true ∧
    (handleEnvelope serverEx
      (.request 1 "r1" "/ping" (.serializable 0) (some "c1") none none)).handlerRan = true ∧
    (handleEnvelope serverEx
      (.request 1 "r1" "/ping" (.serializable 0) (some "c1") none none)).sent.length = 1 :=
  ⟨rfl, rfl, rfl⟩

/-- C2 (amended): on an inbound request or cancel envelope that carries
no bus field, a responder constructed with a configured bus name applies
no bus-based rejection at all — its addressing filter decides exactly as
an unscoped responder's would, by the source and target checks alone. -/
theorem C2_busless_ignores_server_bus (serverId b : String)
    (acceptUnaddressed : Bool) (sourceId targetId : Option String) :
    matchesAddressing serverId (some b) acceptUnaddressed sourceId targetId none =
      matchesAddressing serverId none acceptUnaddressed sourceId targetId none := by
  simp [matchesAddressing, strTruthy]

/-- C3: the route matcher evaluated at the failing input.  The RegExp
matching the single character b, applied to the path "/ab", succeeds —
`RegExp.prototype.test` is a substring search — although the pattern
matches only a proper substring of the path and not the entire path, and
the repository's routing guide states that regex routes must match the
entire route. -/
theorem C3_substring_match_failing_input :
    matchRoute (.pattern (Regex.chr 'b')) "/ab" = some [] ∧
    (Regex.chr 'b').matchList "/ab".toList = false :=
  ⟨rfl, rfl⟩

/-- C4 counterexample: invoking `call` on an open requester with an abort
signal already in the fired state does reject with code cancelled, not
retriable — but the Request envelope is posted to the transport first
(followed by a best-effort Cancel envelope), contradicting the claim that
no Request envelope is sent. -/
theorem C4_counterexample :
    (callStep clientEx "/r" (.serializable 0) none (some true) "id-1" false).result =
      .rejected AtBusErrorCode.Cancelled false ∧
    (callStep clientEx "/r" (.serializable 0) none (some true) "id-1" false).attempts =
      [.request 1 "id-1" "/r" (.serializable 0) (some "c1") none none,
       .cancel 1 "id-1" (some "c1") none none] :=
  ⟨rfl, rfl⟩

/-- C4 (amended): when `call` is invoked on an open requester with an
abort signal already in the fired state and a transport whose post does
not throw, the call rejects with code cancelled, not retriable, and the
pending entry is cleaned up — but only after the Request envelope has
been posted; the posting order is the Request envelope first, then the
best-effort Cancel envelope. -/
theorem C4_aborted_signal_rejects_after_post (c : ClientState) (route : String)
    (payload : Payload) (timeoutMs : Option Nat) (requestId : String)
    (hopen : c.closed = false) (hroute : validateRoute (.str route) = true)
    (hsize : ¬ payloadSizeBytes payload > (c.maxPayloadBytes : WithTop Nat)) :
    (callStep c route payload timeoutMs (some true) requestId false).result =
      .rejected AtBusErrorCode.Cancelled false ∧
    (callStep c route payload timeoutMs (some true) requestId false).attempts =
      [.request ATBUS_PROTOCOL_VERSION requestId route payload
         (some c.clientId) c.targetId c.bus,
       .cancel ATBUS_PROTOCOL_VERSION requestId (some c.clientId) c.targetId c.bus] ∧
    (callStep c route payload timeoutMs (some true) requestId false).state.pending =
      c.pending.filter (fun p => p.1 ≠ requestId) := by
  by_cases hs : c.started <;>
    simp [callStep, hopen, hs, hroute, hsize, cancelEnvelope]

/-- C4 witness: the amended theorem applied to the concrete open
requester, a valid route and a small payload. -/
theorem C4_witness :
    (callStep clientEx "/r" (.serializable 0) none (some true) "id-1" false).result =
      .rejected AtBusErrorCode.Cancelled false ∧
    (callStep clientEx "/r" (.serializable 0) none (some true) "id-1" false).attempts =
      [.request ATBUS_PROTOCOL_VERSION "id-1" "/r" (.serializable 0)
         (some clientEx.clientId) clientEx.targetId clientEx.bus,
       .cancel ATBUS_PROTOCOL_VERSION "id-1" (some clientEx.clientId)
         clientEx.targetId clientEx.bus] ∧
    (callStep clientEx "/r" (.serializable 0) none (some true) "id-1" false).state.pending =
      clientEx.pending.filter (fun p => p.1 ≠ "id-1") :=
  C4_aborted_signal_rejects_after_post clientEx "/r" (.serializable 0) none "id-1"
    rfl rfl (by decide)

/-- C5: `stop` on an open requester marks it closed, detaches the
receiver, rejects every pending entry with code client-closed (not
retriable), cancels every pending timer, best-effort sends a cancel
envelope per entry, clears the table and closes the endpoint; a second
`stop` is a no-op; and any `call` issued on the stopped requester rejects
immediately with client-closed while attempting nothing on the
transport. -/
theorem C5_stop_drains_closes_idempotent (c : ClientState) (hopen : c.closed = false)
    (route : String) (payload : Payload) (timeoutMs : Option Nat)
    (signal : Option Bool) (requestId : String) (postThrows : Bool) :
    (stopStep c).state.closed = true ∧
    (stopStep c).state.receiverAttached = false ∧
    (stopStep c).state.pending = [] ∧
    (stopStep c).state.endpointClosed = true ∧
    (stopStep c).rejections =
      c.pending.map (fun p => (p.1, AtBusErrorCode.ClientClosed, false)) ∧
    (stopStep c).clearedTimers = c.pending.map (fun p => p.2) ∧
    (stopStep c).attempts = c.pending.map (fun p => cancelEnvelope c p.1) ∧
    stopStep (stopStep c).state = ⟨(stopStep c).state, [], [], []⟩ ∧
    (callStep (stopStep c).state route payload timeoutMs signal requestId postThrows).result =
      .rejected AtBusErrorCode.ClientClosed false ∧
    (callStep (stopStep c).state route payload timeoutMs signal requestId postThrows).attempts = [] := by
  simp [stopStep, callStep, hopen]

/-- C5 witness: the shutdown theorem applied to the concrete open
requester with two pending requests. -/
theorem C5_witness :
    (stopStep clientEx).state.closed = true ∧
    (stopStep clientEx).state.receiverAttached = false ∧
    (stopStep clientEx).state.pending = [] ∧
    (stopStep clientEx).state.endpointClosed = true ∧
    (stopStep clientEx).rejections =
      clientEx.pending.map (fun p => (p.1, AtBusErrorCode.ClientClosed, false)) ∧
    (stopStep clientEx).clearedTimers = clientEx.pending.map (fun p => p.2) ∧
    (stopStep clientEx).attempts = clientEx.pending.map (fun p => cancelEnvelope clientEx p.1) ∧
    stopStep (stopStep clientEx).state = ⟨(stopStep clientEx).state, [], [], []⟩ ∧
    (callStep (stopStep clientEx).state "/r" (.serializable 0) none none "id-1" false).result =
      .rejected AtBusErrorCode.ClientClosed false ∧
    (callStep (stopStep clientEx).state "/r" (.serializable 0) none none "id-1" false).attempts = [] :=
  C5_stop_drains_closes_idempotent clientEx rfl "/r" (.serializable 0) none none "id-1" false

/-- C7: the error mapper's retriability — an explicit boolean
`retriable` field on the raw failure is honored verbatim; in its absence
the record is retriable exactly when the normalized code is timeout or
transport-error. -/
theorem C7_mapError_retriable (error : JsVal) (route : String) :
    (∀ b : Bool, explicitRetriable error = some b → (mapError error route).retriable = b) ∧
    (explicitRetriable error = none →
      ((mapError error route).retriable = true ↔
        (mapError error route).code = AtBusErrorCode.Timeout ∨
        (mapError error route).code = AtBusErrorCode.TransportError)) := by
  by_cases h : (error.truthy && error.typeofObject) = true
  · cases hr : error.getProp "retriable" <;>
      simp_all [explicitRetriable, mapError, AtBusErrorCode.Timeout,
        AtBusErrorCode.TransportError, AtBusErrorCode.InternalError]
  · have hnot : ¬(error.truthy = true ∧ error.typeofObject = true) := by
      simpa [Bool.and_eq_true] using h
    constructor
    · intro b hb
      simp [explicitRetriable, h] at hb
    · intro _
      simp [mapError, hnot, AtBusErrorCode.Timeout,
        AtBusErrorCode.TransportError, AtBusErrorCode.InternalError]

/-- C7 witness: an explicit `retriable: false` on a TIMEOUT-coded failure
is honored; without the explicit field, the default is characterized by
the normalized code. -/
theorem C7_witness :
    (mapError (.jsObj [("code", .jsStr "TIMEOUT"), ("retriable", .jsBool false)]) "/r").retriable
        = false ∧
    ((mapError (.jsObj [("code", .jsStr "TIMEOUT")]) "/r").retriable = true ↔
      (mapError (.jsObj [("code", .jsStr "TIMEOUT")]) "/r").code = AtBusErrorCode.Timeout ∨
      (mapError (.jsObj [("code", .jsStr "TIMEOUT")]) "/r").code = AtBusErrorCode.TransportError) :=
  ⟨(C7_mapError_retriable (.jsObj [("code", .jsStr "TIMEOUT"), ("retriable", .jsBool false)])
      "/r").1 false rfl,
   (C7_mapError_retriable (.jsObj [("code", .jsStr "TIMEOUT")]) "/r").2 rfl⟩

/-- C8: an inbound envelope whose protocol version differs from the
current one is ignored by both sides — the responder neither changes
state nor replies nor dispatches on such a request or cancel, and the
requester's message handler neither changes state nor settles any pending
entry on such a response. -/
theorem C8_version_mismatch_ignored (v : Int) (hv : v ≠ ATBUS_PROTOCOL_VERSION)
    (s : ServerState) (c : ClientState) (id route : String) (payload : Payload)
    (ok : Bool) (err : Option ErrorRecord) (sourceId targetId bus : Option String) :
    handleEnvelope s (.request v id route payload sourceId targetId bus) = ⟨s, [], false⟩ ∧
    handleEnvelope s (.cancel v id sourceId targetId bus) = ⟨s, [], false⟩ ∧
    handleMessage c (.response v id ok err sourceId targetId bus) = (c, none) := by
  by_cases hc : s.closed <;> simp [handleEnvelope, handleMessage, hv, hc]

/-- C8 witness: version-2 envelopes are dropped by the concrete responder
and requester. -/
theorem C8_witness :
    handleEnvelope serverEx (.request 2 "r1" "/ping" (.serializable 0) (some "c1") none none)
        = ⟨serverEx, [], false⟩ ∧
    handleEnvelope serverEx (.cancel 2 "r1" (some "c1") none none) = ⟨serverEx, [], false⟩ ∧
    handleMessage clientEx (.response 2 "req-a" true none (some "c1") none none)
        = (clientEx, none) :=
  C8_version_mismatch_ignored 2 (by decide) serverEx clientEx "r1" "/ping" (.serializable 0)
    true none (some "c1") none none

/-- C9: a string route descriptor containing the `:` character matches
through `/`-split segment lists with empty segments discarded, so the
match result is invariant under any change of the path that preserves its
non-empty segments (repeated or trailing slashes); a string descriptor
without `:` matches only under exact string equality. -/
theorem C9_param_routes_normalize_slashes :
    (∀ (route u1 u2 : String), route.toList.contains ':' = true →
        splitSegs u1 = splitSegs u2 →
        matchRoute (.str route) u1 = matchRoute (.str route) u2) ∧
    (∀ (route url : String), route.toList.contains ':' = false →
        (matchRoute (.str route) url = some [] ↔ route = url)) := by
  constructor
  · intro route u1 u2 hc hsplit
    have hc' : ':' ∈ route.data := by simpa using hc
    simp [matchRoute, hc', hsplit]
  · intro route url hc
    have hc' : ':' ∉ route.data := by simpa using hc
    by_cases h : route = url
    · subst h
      simp [matchRoute, hc']
    · simp [matchRoute, hc', h]

/-- C9 witness: `/users//42/` and `/users/42` have the same non-empty
segments, so `/users/:id` matches both with the parameter id bound to 42,
while the literal descriptor `/users/42` does not match the slash-mangled
path. -/
theorem C9_witness :
    matchRoute (.str "/users/:id") "/users//42/" = matchRoute (.str "/users/:id") "/users/42" ∧
    matchRoute (.str "/users/:id") "/users/42" = some [("id", "42")] ∧
    (matchRoute (.str "/users/42") "/users//42/" = some [] ↔ "/users/42" = "/users//42/") :=
  ⟨C9_param_routes_normalize_slashes.1 "/users/:id" "/users//42/" "/users/42" rfl rfl,
   rfl,
   C9_param_routes_normalize_slashes.2 "/users/42" "/users//42/" rfl⟩

/-- C10: a payload whose JSON serialization throws measures as positive
infinity, so whatever finite ceiling is configured, an open requester
rejects the call with payload-too-large without attempting anything on
the transport, and a responder that accepted the request's addressing and
permission replies payload-too-large without invoking any handler and
without changing state. -/
theorem C10_unserializable_payload (c : ClientState) (s : ServerState)
    (route : String) (timeoutMs : Option Nat) (signal : Option Bool)
    (requestId id : String) (postThrows : Bool)
    (sourceId targetId bus : Option String)
    (hcopen : c.closed = false) (hroute : validateRoute (.str route) = true)
    (hsopen : s.closed = false)
    (haddr : matchesAddressing s.serverId s.bus s.acceptUnaddressed sourceId targetId bus = true)
    (hallow : (match s.canHandle with | some allowed => allowed route | none => true) = true) :
    payloadSizeBytes .unserializable = ⊤ ∧
    (callStep c route .unserializable timeoutMs signal requestId postThrows).result =
      .rejected AtBusErrorCode.PayloadTooLarge false ∧
    (callStep c route .unserializable timeoutMs signal requestId postThrows).attempts = [] ∧
    handleEnvelope s (.request ATBUS_PROTOCOL_VERSION id route .unserializable
        sourceId targetId bus) =
      ⟨s, [sendFailureEnv s.serverId id AtBusErrorCode.PayloadTooLarge
            ("Payload exceeds " ++ toString s.maxPayloadBytes ++ " bytes") route false
            sourceId bus], false⟩ := by
  refine ⟨rfl, ?_, ?_, ?_⟩
  · by_cases hs : c.started <;>
      simp [callStep, hcopen, hs, hroute, payloadSizeBytes]
  · by_cases hs : c.started <;>
      simp [callStep, hcopen, hs, hroute, payloadSizeBytes]
  · cases hch : s.canHandle <;>
      simp_all [handleEnvelope, hsopen, haddr, payloadSizeBytes, ATBUS_PROTOCOL_VERSION]

/-- C10 witness: the theorem applied to the concrete open requester and
the concrete bus-scoped responder with no permission predicate. -/
theorem C10_witness :
    payloadSizeBytes .unserializable = ⊤ ∧
    (callStep clientEx "/r" .unserializable none none "id-1" false).result =
      .rejected AtBusErrorCode.PayloadTooLarge false ∧
    (callStep clientEx "/r" .unserializable none none "id-1" false).attempts = [] ∧
    handleEnvelope serverEx (.request ATBUS_PROTOCOL_VERSION "r1" "/r" .unserializable
        (some "c1") none none) =
      ⟨serverEx, [sendFailureEnv serverEx.serverId "r1" AtBusErrorCode.PayloadTooLarge
            ("Payload exceeds " ++ toString serverEx.maxPayloadBytes ++ " bytes") "/r" false
            (some "c1") none], false⟩ :=
  C10_unserializable_payload clientEx serverEx "/r" none none "id-1" "r1" false
    (some "c1") none none rfl rfl rfl rfl rfl

/-- Aborting an identifier that is in none of the in-flight entries
leaves the table unchanged. -/
theorem abortInFlight_not_mem (l : List (String × Bool)) (id : String)
    (h : ∀ p ∈ l, p.1 ≠ id) : abortInFlight l id = l := by
  induction l with
  | nil => rfl
  | cons a l ih =>
      have ha : a.1 ≠ id := h a (List.mem_cons_self a l)
      have hl : ∀ p ∈ l, p.1 ≠ id := fun p hp => h p (List.mem_cons_of_mem a hp)
      have ih' := ih hl
      simp only [abortInFlight, List.map_cons, if_neg ha] at ih' ⊢
      rw [ih']

/-- C6: whenever the responder dispatched a request to a handler, the
in-flight entry for that request's identifier is gone from the table when
the reaction returns, whether the handler succeeded or failed; and a
cancel envelope whose identifier is in no in-flight entry changes no
state, sends no reply and runs no handler. -/
theorem C6_inflight_removed_cancel_noop
    (s t : ServerState) (v w : Int) (id route cid : String) (payload : Payload)
    (sourceId targetId bus csourceId ctargetId cbus : Option String)
    (hdispatched : (handleEnvelope s
        (.request v id route payload sourceId targetId bus)).handlerRan = true)
    (hno : ∀ p ∈ t.inFlight, p.1 ≠ cid) :
    (∀ q ∈ (handleEnvelope s
        (.request v id route payload sourceId targetId bus)).state.inFlight, q.1 ≠ id) ∧
    handleEnvelope t (.cancel w cid csourceId ctargetId cbus) = ⟨t, [], false⟩ := by
  constructor
  · intro q hq
    by_cases h1 : s.closed
    · simp [handleEnvelope, h1] at hdispatched
    by_cases h2 : v ≠ ATBUS_PROTOCOL_VERSION
    · simp [handleEnvelope, h1, h2] at hdispatched
    by_cases h3 : matchesAddressing s.serverId s.bus s.acceptUnaddressed sourceId targetId bus
    rotate_left
    · simp [handleEnvelope, h1, h2, h3] at hdispatched
    by_cases h4 : (match s.canHandle with
        | some allowed => !allowed route | none => false) = true
    · simp [handleEnvelope, h1, h2, h3, h4] at hdispatched
    by_cases h5 : payloadSizeBytes payload > (s.maxPayloadBytes : WithTop Nat)
    · simp [handleEnvelope, h1, h2, h3, h4, h5] at hdispatched
    cases hm : findMatch s.routes route with
    | none => simp [handleEnvelope, h1, h2, h3, h4, h5, hm] at hdispatched
    | some m =>
        simp [handleEnvelope, h1, h2, h3, h4, h5, hm] at hq
        exact hq.2
  · have habort := abortInFlight_not_mem t.inFlight cid hno
    by_cases h1 : t.closed
    · simp [handleEnvelope, h1]
    by_cases h2 : w ≠ ATBUS_PROTOCOL_VERSION
    · simp [handleEnvelope, h1, h2]
    by_cases h3 : matchesAddressing t.serverId t.bus t.acceptUnaddressed csourceId ctargetId cbus
    · obtain ⟨tc, tst, trt, tif, tsid, tbus, tacc, tmax, tch⟩ := t
      simp_all [handleEnvelope]
    · simp [handleEnvelope, h1, h2, h3]

/-- C6 witness: the `/ping` dispatch on the concrete responder ends with
no in-flight entry for its identifier, and a cancel for an unknown
identifier on the same responder (whose in-flight table is empty) is a
complete no-op. -/
theorem C6_witness :
    (∀ q ∈ (handleEnvelope serverEx
        (.request 1 "r1" "/ping" (.serializable 0) (some "c1") none none)).state.inFlight,
        q.1 ≠ "r1") ∧
    handleEnvelope serverEx (.cancel 1 "nope" (some "c1") none none) = ⟨serverEx, [], false⟩ :=
  C6_inflight_removed_cancel_noop serverEx serverEx 1 1 "r1" "/ping" "nope"
    (.serializable 0) (some "c1") none none (some "c1") none none
    rfl (by simp [serverEx])

/-- The correlator invariant holds at registration time. -/
theorem corrInv_init : corrInv corrInit := by
  simp [corrInv, corrInit]

/-- Every trigger reaction preserves the correlator invariant. -/
theorem corrInv_step (s : CorrState) (e : CorrEvent) (h : corrInv s) :
    corrInv (corrStep s e) := by
  obtain ⟨hasE, tArm, lArm, stl, cnt⟩ := s
  cases e with
  | responseArrive ok =>
      cases hasE <;> cases stl <;> simp_all [corrStep, settlePromise, corrInv]
  | timerFire =>
      cases hasE <;> cases tArm <;> cases stl <;>
        simp_all [corrStep, settlePromise, corrInv]
  | abortFire =>
      cases hasE <;> cases lArm <;> cases tArm <;> cases stl <;>
        simp_all [corrStep, settlePromise, corrInv]

/-- The correlator invariant is preserved by every trigger sequence. -/
theorem corrInv_run (s : CorrState) (es : List CorrEvent) (h : corrInv s) :
    corrInv (corrRun s es) := by
  induction es generalizing s with
  | nil => exact h
  | cons e es ih => exact ih (corrStep s e) (corrInv_step s e h)

/-- Once the pending entry is gone, any further trigger neither restores
the entry nor changes the promise: no second settlement. -/
theorem corr_noEntry_step (s : CorrState) (e : CorrEvent) (h : corrInv s)
    (hne : s.hasEntry = false) :
    (corrStep s e).hasEntry = false ∧
    (corrStep s e).settled = s.settled ∧
    (corrStep s e).settleCount = s.settleCount := by
  obtain ⟨hasE, tArm, lArm, stl, cnt⟩ := s
  cases e with
  | responseArrive ok =>
      cases stl <;> simp_all [corrStep, settlePromise, corrInv]
  | timerFire =>
      cases tArm <;> cases stl <;> simp_all [corrStep, settlePromise, corrInv]
  | abortFire =>
      cases lArm <;> cases tArm <;> cases stl <;>
        simp_all [corrStep, settlePromise, corrInv]

/-- Once the pending entry is gone it stays gone under any further
trigger sequence. -/
theorem corr_noEntry_run (s : CorrState) (es : List CorrEvent) (h : corrInv s)
    (hne : s.hasEntry = false) : (corrRun s es).hasEntry = false := by
  induction es generalizing s with
  | nil => exact hne
  | cons e es ih =>
      exact ih (corrStep s e) (corrInv_step s e h) (corr_noEntry_step s e h hne).1

/-- From the registered state, the very first trigger of any kind removes
the pending entry. -/
theorem corr_first_step (e : CorrEvent) : (corrStep corrInit e).hasEntry = false := by
  cases e with
  | responseArrive ok => cases ok <;> rfl
  | timerFire => rfl
  | abortFire => rfl

/-- C1: whatever non-empty sequence of completion triggers (response
arrivals, timeout firing, abort firing) executes for a registered
request, in any order and overlap, the call promise is settled exactly
once; and after the pending entry has been removed, one more trigger of
any kind leaves the entry absent and the promise settlement untouched —
a no-op rather than a second settlement. -/
theorem C1_exactly_once_settlement (es : List CorrEvent) (hne : es ≠ [])
    (e : CorrEvent) :
    (corrRun corrInit es).settleCount = 1 ∧
    (corrRun corrInit es).hasEntry = false ∧
    (corrStep (corrRun corrInit es) e).settleCount = 1 ∧
    (corrStep (corrRun corrInit es) e).settled = (corrRun corrInit es).settled ∧
    (corrStep (corrRun corrInit es) e).hasEntry = false := by
  obtain ⟨e0, rest, rfl⟩ : ∃ e0 rest, es = e0 :: rest := by
    cases es with
    | nil => exact absurd rfl hne
    | cons a l => exact ⟨a, l, rfl⟩
  have hrun : corrRun corrInit (e0 :: rest) = corrRun (corrStep corrInit e0) rest := by
    simp [corrRun]
  have hinv0 : corrInv (corrStep corrInit e0) := corrInv_step corrInit e0 corrInv_init
  have hinv : corrInv (corrRun (corrStep corrInit e0) rest) :=
    corrInv_run (corrStep corrInit e0) rest hinv0
  have hgone : (corrRun (corrStep corrInit e0) rest).hasEntry = false :=
    corr_noEntry_run (corrStep corrInit e0) rest hinv0 (corr_first_step e0)
  have hcount : (corrRun (corrStep corrInit e0) rest).settleCount = 1 :=
    (hinv.2 hgone).2.1
  have hnoop := corr_noEntry_step (corrRun (corrStep corrInit e0) rest) e hinv hgone
  rw [hrun]
  exact ⟨hcount, hgone, hnoop.2.2 ▸ hcount, hnoop.2.1, hnoop.1⟩

/-- C1 witness: the timeout fires first and settles the promise once; a
subsequent abort firing finds no entry and changes nothing. -/
theorem C1_witness :
    (corrRun corrInit [CorrEvent.timerFire]).settleCount = 1 ∧
    (corrRun corrInit [CorrEvent.timerFire]).hasEntry = false ∧
    (corrStep (corrRun corrInit [CorrEvent.timerFire]) CorrEvent.abortFire).settleCount = 1 ∧
    (corrStep (corrRun corrInit [CorrEvent.timerFire]) CorrEvent.abortFire).settled =
      (corrRun corrInit [CorrEvent.timerFire]).settled ∧
    (corrStep (corrRun corrInit [CorrEvent.timerFire]) CorrEvent.abortFire).hasEntry = false :=
  C1_exactly_once_settlement [CorrEvent.timerFire] (by simp) CorrEvent.abortFire

/-- Characterization of the `RegExp.prototype.test` model: the search
succeeds exactly when the pattern matches some contiguous substring of
the subject, i.e. the subject decomposes around an exactly-matched
middle. -/
theorem Regex.test_iff_substring (r : Regex) (url : String) :
    r.test url = true ↔
      ∃ pre mid post : List Char,
        url.toList = pre ++ mid ++ post ∧ r.matchList mid = true := by
  unfold Regex.test
  simp only [List.any_eq_true, List.mem_range]
  constructor
  · rintro ⟨i, hi, n, hn, hm⟩
    refine ⟨url.toList.take i, (url.toList.drop i).take n, (url.toList.drop i).drop n,
      ?_, hm⟩
    rw [List.append_assoc, List.take_append_drop, List.take_append_drop]
  · rintro ⟨pre, mid, post, hdec, hm⟩
    have hlen : url.toList.length = pre.length + mid.length + post.length := by
      rw [hdec]; simp [Nat.add_assoc]
    refine ⟨pre.length, by omega, mid.length, by omega, ?_⟩
    have hdec' : url.toList = pre ++ (mid ++ post) := by
      rw [hdec, List.append_assoc]
    rw [hdec', List.drop_left, List.take_left]
    exact hm

end AtBus
